import Mathlib

/-!
Verification of the invoice generator's tax-computation and aggregation logic
(`InvoiceGenerator` in `B-I.py`).

The program does all monetary arithmetic with Python's `decimal.Decimal` under the
default context (28 significant digits, round-half-even).  We embed that arithmetic
faithfully: a decimal is a coefficient/exponent pair, every arithmetic operation
produces the exact result and then rounds the coefficient to 28 significant digits
with ties to even, exactly as CPython's `decimal` module does.  String and integer
inputs are converted by an embedded `Decimal` constructor; the float literals
`0.09` and `0.18` that the source passes to `Decimal(...)` are embedded as the
exact values of the corresponding IEEE-754 doubles, which is what
`Decimal(float)` produces.
-/

/-- Decimal digit count of a natural number, with bounded fuel (first argument).
`numDigitsAux fuel n` is the digit count of `n` whenever `fuel > n ≥ 1`. -/
def numDigitsAux : Nat → Nat → Nat
  | _, 0 => 0
  | 0, _ => 0
  | fuel + 1, n => numDigitsAux fuel (n / 10) + 1

/-- Number of decimal digits of `n` (`0` has zero digits, which is how Python's
decimal module counts the coefficient `0`). -/
def numDigits (n : Nat) : Nat := numDigitsAux (n + 1) n

/-- Round `n / 10 ^ k` to the nearest natural number, ties to even
(Python's `ROUND_HALF_EVEN`). -/
def natDivHalfEven (n k : Nat) : Nat :=
  let d := 10 ^ k
  let q := n / d
  let r := n % d
  if 2 * r < d then q
  else if d < 2 * r then q + 1
  else if q % 2 = 0 then q else q + 1

/-- Round `c / 10 ^ k` to the nearest integer, ties to even.  Half-even rounding
is symmetric about zero, so it factors through the absolute value. -/
def intDivHalfEven (c : Int) (k : Nat) : Int :=
  if 0 ≤ c then (natDivHalfEven c.natAbs k : Int) else -(natDivHalfEven c.natAbs k : Int)

/-- A Python `decimal.Decimal` value: `c × 10 ^ e` with integer coefficient `c`
and integer exponent `e`.  (Finite values only; nothing in the program produces
infinities or NaNs.) -/
structure Dec where
  c : Int
  e : Int
deriving Repr, DecidableEq

/-- Precision of Python's default decimal context: 28 significant digits. -/
def PREC : Nat := 28

/-- Round an exact coefficient/exponent result to the context precision, as the
decimal module does after every arithmetic operation: if the coefficient has more
than 28 digits, drop the excess with half-even rounding and raise the exponent;
a carry that creates a 29th digit (coefficient `10 ^ 28`) is renormalised. -/
def roundPrec (c : Int) (e : Int) : Dec :=
  let nd := numDigits c.natAbs
  if nd ≤ PREC then ⟨c, e⟩
  else
    let k := nd - PREC
    let c2 := intDivHalfEven c k
    if numDigits c2.natAbs ≤ PREC then ⟨c2, e + (k : Int)⟩
    else ⟨c2 / 10, e + (k : Int) + 1⟩

/-- Decimal addition under the default context: align to the smaller exponent,
add exactly, round to 28 significant digits. -/
def decAdd (a b : Dec) : Dec :=
  let e := min a.e b.e
  roundPrec (a.c * 10 ^ (a.e - e).toNat + b.c * 10 ^ (b.e - e).toNat) e

/-- Decimal subtraction: addition of the negation (as in the decimal module). -/
def decSub (a b : Dec) : Dec := decAdd a ⟨-b.c, b.e⟩

/-- Decimal multiplication under the default context: exact product of the
coefficients, sum of the exponents, rounded to 28 significant digits. -/
def decMul (a b : Dec) : Dec := roundPrec (a.c * b.c) (a.e + b.e)

/-- Exact (unrounded, context-free) decimal product.  This is the mathematical
`×` used by the specification when it says an amount equals `net_amount × 0.09`
"with exact decimal arithmetic"; it is NOT what the program computes. -/
def decMulExact (a b : Dec) : Dec := ⟨a.c * b.c, a.e + b.e⟩

/-- Numeric equality of two decimals (Python's `==` on `Decimal`): equal values,
regardless of representation, i.e. equal coefficients once aligned to a common
exponent. -/
def Dec.veq (a b : Dec) : Prop :=
  a.c * 10 ^ (a.e - min a.e b.e).toNat = b.c * 10 ^ (b.e - min a.e b.e).toNat

instance (a b : Dec) : Decidable (a.veq b) := by
  unfold Dec.veq; infer_instance

/-- The exact value of the IEEE-754 double nearest to `0.09`, which is
`3242591731706757 × 2⁻⁵⁵`; this is what `Decimal(0.09)` constructs
(`0.08999999999999999666933092612453037872910499572753906250`). -/
def dec_0_09_float : Dec := ⟨3242591731706757 * 5 ^ 55, -55⟩

/-- The exact value of the IEEE-754 double nearest to `0.18`, which is
`3242591731706757 × 2⁻⁵⁴`; this is what `Decimal(0.18)` constructs. -/
def dec_0_18_float : Dec := ⟨3242591731706757 * 5 ^ 54, -54⟩

/-- `Decimal(0)`. -/
def dec_zero : Dec := ⟨0, 0⟩

/-- Is this character a decimal digit? -/
def isDigitCh (ch : Char) : Bool := '0' ≤ ch && ch ≤ '9'

/-- Numeric value of a list of digit characters (most significant first). -/
def digitsToNat (cs : List Char) : Nat :=
  cs.foldl (fun a ch => a * 10 + (ch.toNat - 48)) 0

/-- Parse an unsigned decimal numeral `digits [. digits]` (digits required on at
least one side of the dot) into an exact coefficient/exponent pair, keeping
trailing zeros exactly as `Decimal('538.10') = 53810E-2` does. -/
def parseUnsigned (cs : List Char) : Option Dec :=
  if cs.contains '.' then
    let ip := cs.takeWhile (fun ch => ch ≠ '.')
    let fp := (cs.dropWhile (fun ch => ch ≠ '.')).tail
    if ip.all isDigitCh && fp.all isDigitCh && !fp.contains '.' &&
        !(ip.isEmpty && fp.isEmpty) then
      some ⟨(digitsToNat (ip ++ fp) : Int), -(fp.length : Int)⟩
    else none
  else if cs.all isDigitCh && !cs.isEmpty then
    some ⟨(digitsToNat cs : Int), 0⟩
  else none

/-- The `Decimal(str)` constructor on the plain numeric forms
`[+|-] digits [. digits]` the program's data uses; any other string fails the
conversion (CPython raises `decimal.InvalidOperation`). -/
def parseDecimalStr (s : String) : Option Dec :=
  match s.toList with
  | '-' :: rest => (parseUnsigned rest).map fun d => ⟨-d.c, d.e⟩
  | '+' :: rest => parseUnsigned rest
  | cs => parseUnsigned cs

/-- A Python value appearing in a line item's `unit_price` / `quantity` /
`discount` slot: the program's data holds strings and ints there. -/
inductive PyVal where
  | vint : Int → PyVal
  | vstr : String → PyVal
deriving Repr, DecidableEq

/-- `Decimal(x)` on such a value: integers convert exactly, strings are parsed;
a non-numeric string fails (`decimal.InvalidOperation`). -/
def pyDecimal : PyVal → Option Dec
  | .vint n => some ⟨n, 0⟩
  | .vstr s => parseDecimalStr s

/-- A line item (`item_details` entry).  Input fields `description`,
`unit_price`, `quantity`, `discount` are caller-supplied; the remaining fields
are the derived slots that `_compute_item_details` fills in
(`none` models Python's `None` / a not-yet-assigned key). -/
structure Item where
  description : String
  unit_price : PyVal
  quantity : PyVal
  discount : PyVal
  net_amount : Option Dec := none
  tax_rate : Option Dec := none
  tax_type : Option String := none
  tax_amount : Option Dec := none
  total_amount : Option Dec := none
  tax_amount_sgst : Option Dec := none
  total_amount_sgst : Option Dec := none
deriving Repr, DecidableEq

/-- A billing/shipping party record.  `city` and `state` are `Option` because
`_compute_item_details` accesses them by dictionary key, which can be absent
(Python then raises `KeyError`). -/
structure Party where
  name : String
  address : String
  city : Option String
  state : Option String
  pincode : Int
  state_ut_code : Int
deriving Repr, DecidableEq

/-- The seller record (not read by the tax computation). -/
structure Seller where
  name : String
  address : String
  city : String
  state : String
  pincode : Int
  pan_no : String
  gst_registration_no : String
deriving Repr, DecidableEq

/-- Order metadata (not read by the tax computation). -/
structure OrderDetails where
  order_no : String
  order_date : String
deriving Repr, DecidableEq

/-- Invoice metadata (not read by the tax computation). -/
structure InvoiceDetails where
  invoice_no : String
  invoice_details : String
  invoice_date : String
deriving Repr, DecidableEq

/-- An exception that `_compute_item_details` can raise: `decimal.InvalidOperation`
from a failed `Decimal(...)` conversion, or `KeyError` from a missing
state/city key on the billing or shipping dictionary. -/
inductive PyErr where
  | invalidOperation
  | keyError : String → PyErr
deriving Repr, DecidableEq

/-- The CGST branch of `_compute_item_details` (same state and same city):
`tax_type = 'CGST'`, `tax_rate = Decimal(0.09)`,
`tax_amount = net × Decimal(0.09)`, `total_amount = net + tax_amount`,
`tax_amount_sgst = net × Decimal(0.09)`, `total_amount_sgst = net + tax_amount_sgst`,
in source order, all under the default decimal context. -/
def cgstUpdate (item : Item) (net : Dec) : Item :=
  let tax := decMul net dec_0_09_float
  let taxSgst := decMul net dec_0_09_float
  { item with
    tax_type := some "CGST"
    tax_rate := some dec_0_09_float
    tax_amount := some tax
    total_amount := some (decAdd net tax)
    tax_amount_sgst := some taxSgst
    total_amount_sgst := some (decAdd net taxSgst) }

/-- The IGST branch of `_compute_item_details` (different state or city):
`tax_type = 'IGST'`, `tax_rate = Decimal(0.18)`,
`tax_amount = net × Decimal(0.18)`, `total_amount = net + tax_amount`,
and both `_sgst` fields set to `Decimal(0)`. -/
def igstUpdate (item : Item) (net : Dec) : Item :=
  let tax := decMul net dec_0_18_float
  { item with
    tax_type := some "IGST"
    tax_rate := some dec_0_18_float
    tax_amount := some tax
    total_amount := some (decAdd net tax)
    tax_amount_sgst := some dec_zero
    total_amount_sgst := some dec_zero }

/-- One loop iteration of `_compute_item_details`, in the source's evaluation
order: first `item['net_amount'] = Decimal(unit_price) * Decimal(quantity) -
Decimal(discount)` (each conversion can raise `InvalidOperation`, and the
assignment happens only if all three succeed), then the branch condition
`billing['state'] == shipping['state'] and billing['city'] == shipping['city']`
(each key access can raise `KeyError`; the city keys are only read when the
states compare equal, because `and` short-circuits).  Returns the item as left
by the iteration together with the exception, if one was raised. -/
def computeItem (billing shipping : Party) (item : Item) : Item × Option PyErr :=
  match pyDecimal item.unit_price with
  | none => (item, some .invalidOperation)
  | some up =>
    match pyDecimal item.quantity with
    | none => (item, some .invalidOperation)
    | some q =>
      match pyDecimal item.discount with
      | none => (item, some .invalidOperation)
      | some disc =>
        let net := decSub (decMul up q) disc
        let item1 := { item with net_amount := some net }
        match billing.state with
        | none => (item1, some (.keyError "state"))
        | some bState =>
          match shipping.state with
          | none => (item1, some (.keyError "state"))
          | some sState =>
            if bState = sState then
              match billing.city with
              | none => (item1, some (.keyError "city"))
              | some bCity =>
                match shipping.city with
                | none => (item1, some (.keyError "city"))
                | some sCity =>
                  if bCity = sCity then (cgstUpdate item1 net, none)
                  else (igstUpdate item1 net, none)
            else (igstUpdate item1 net, none)

/-- `_compute_item_details` over the whole `item_details` list.  The Python loop
mutates items in place and an exception aborts it, so the result is the list as
left behind: items before the failure fully computed, the failing item updated
as far as the iteration got, later items untouched. -/
def computeItems (billing shipping : Party) : List Item → List Item × Option PyErr
  | [] => ([], none)
  | item :: rest =>
    let r := computeItem billing shipping item
    match r.2 with
    | some err => (r.1 :: rest, some err)
    | none =>
      let rr := computeItems billing shipping rest
      (r.1 :: rr.1, rr.2)

/-- The `InvoiceGenerator` aggregate: the fields taken by `__init__`. -/
structure Invoice where
  seller_details : Seller
  billing_details : Party
  shipping_details : Party
  order_details : OrderDetails
  invoice_details : InvoiceDetails
  item_details : List Item
  reverse_charge : String
  signature_image_path : String
  output_filename : String
deriving Repr, DecidableEq

/-- The `self._compute_item_details()` step on the aggregate: rewrites
`item_details` (in-place in Python) from the billing and shipping records and
touches nothing else; an exception propagates to the caller. -/
def computeInvoice (inv : Invoice) : Invoice × Option PyErr :=
  let r := computeItems inv.billing_details inv.shipping_details inv.item_details
  ({ inv with item_details := r.1 }, r.2)

/-- A cell of the rendered item-details table. -/
inductive Cell where
  | cnat : Nat → Cell
  | cstr : String → Cell
  | cval : PyVal → Cell
  | cdec : Option Dec → Cell
  | costr : Option String → Cell
deriving Repr, DecidableEq

/-- The header row of `_create_item_details_table`. -/
def headerRow : List Cell :=
  [.cstr "SI. No", .cstr "Description", .cstr "Unit Price", .cstr "Qty",
   .cstr "Net Amount", .cstr "Tax Rate", .cstr "Tax Type", .cstr "Tax Amount",
   .cstr "Total Amount"]

/-- The data row `_create_item_details_table` appends for the item at
0-based `index`: serial number `index + 1` followed by the item's fields. -/
def itemRowCells (index : Nat) (item : Item) : List Cell :=
  [.cnat (index + 1), .cstr item.description, .cval item.unit_price,
   .cval item.quantity, .cdec item.net_amount, .cdec item.tax_rate,
   .costr item.tax_type, .cdec item.tax_amount, .cdec item.total_amount]

/-- `_create_item_details_table`: the header row followed by one row per item,
produced by `enumerate(self.item_details)` in input order. -/
def create_item_details_table (items : List Item) : List (List Cell) :=
  headerRow :: (items.enum.map fun p => itemRowCells p.1 p.2)

/-- `sum([...])`: Python's `sum` starts from the int `0`, so the fold starts at
`Decimal(0)` and every step is a context addition. -/
def sumDecimals (ds : List Dec) : Dec := ds.foldl decAdd dec_zero

/-- The grand total as computed inside `_create_total_row`:
`sum([Decimal(item['total_amount']) for item in self.item_details])`.
`Decimal(Decimal)` is the identity, and a `None` in `total_amount` would make
the conversion raise, modelled by `none`. -/
def create_total_row_amount (items : List Item) : Option Dec :=
  (items.mapM fun (item : Item) => item.total_amount).map sumDecimals

/-- The grand total as computed inside `_create_amount_in_words`:
`sum([Decimal(item['total_amount']) for item in self.item_details])` — the same
expression at the second call site. -/
def create_amount_in_words_amount (items : List Item) : Option Dec :=
  (items.mapM fun (item : Item) => item.total_amount).map sumDecimals


/-- The sample billing record from the program's `__main__` block
(state KARNATAKA, city BENGALURU). -/
def billingSample : Party :=
  { name := "Madhu B"
    address := "Eurofins IT Solutions India Pvt Ltd,, 1st Floor, Maruti Platinum, Lakshminarayana Pura, AECS Layou"
    city := some "BENGALURU"
    state := some "KARNATAKA"
    pincode := 560037
    state_ut_code := 29 }

/-- The sample shipping record, identical to the billing record. -/
def shippingSample : Party :=
  { name := "Madhu B"
    address := "Eurofins IT Solutions India Pvt Ltd,, 1st Floor, Maruti Platinum, Lakshminarayana Pura, AECS Layou"
    city := some "BENGALURU"
    state := some "KARNATAKA"
    pincode := 560037
    state_ut_code := 29 }

/-- Scenario B's shipping party: the sample record with state MAHARASHTRA. -/
def shippingMaharashtra : Party := { shippingSample with state := some "MAHARASHTRA" }

/-- The first sample line item: a shirt at unit price `'538.10'`, quantity 1,
discount 0. -/
def itemShirt : Item :=
  { description := "Varasiddhi Silks Mens Formal Shirt (SH-05-42, Navy Blue, 42) | B07KGF3KW8 (SH-05--42)"
    unit_price := PyVal.vstr "538.10"
    quantity := PyVal.vint 1
    discount := PyVal.vint 0 }

/-- The second sample line item: shipping charges at unit price `'30.96'`,
quantity 1, discount 0. -/
def itemShipping : Item :=
  { description := "Shipping Charges"
    unit_price := PyVal.vstr "30.96"
    quantity := PyVal.vint 1
    discount := PyVal.vint 0 }

/-- C1: the claim says that for an intra-state item (equal billing/shipping state
and city) the computation yields `tax_amount = net_amount × 0.09` and
`tax_amount_sgst = net_amount × 0.09`.  The branch selection and field wiring
are as claimed, but the code multiplies by `Decimal(0.09)` — the IEEE-754 double
nearest to 0.09, which is strictly below 9/100 — so on the sample shirt
(net = 538.10) both tax fields come out `48.42899999999999820776697135`, which
is NOT `538.10 × 0.09 = 48.429`: the code contradicts the specified exact-decimal
9% rate. -/
theorem claim_C1 :
    ((computeItem billingSample shippingSample itemShirt).2 = none) ∧
    ((computeItem billingSample shippingSample itemShirt).1.tax_type = some "CGST") ∧
    ((computeItem billingSample shippingSample itemShirt).1.net_amount = some ⟨53810, -2⟩) ∧
    ((computeItem billingSample shippingSample itemShirt).1.tax_amount =
      some ⟨4842899999999999820776697135, -26⟩) ∧
    ((computeItem billingSample shippingSample itemShirt).1.tax_amount_sgst =
      some ⟨4842899999999999820776697135, -26⟩) ∧
    ((computeItem billingSample shippingSample itemShirt).1.total_amount =
      some ⟨5865289999999999982077669714, -25⟩) ∧
    ((computeItem billingSample shippingSample itemShirt).1.total_amount_sgst =
      some ⟨5865289999999999982077669714, -25⟩) ∧
    ¬ Dec.veq ⟨4842899999999999820776697135, -26⟩ (decMulExact ⟨53810, -2⟩ ⟨9, -2⟩) := by
  decide

/-- C2: the claim says that for an inter-state item `tax_amount = net_amount ×
0.18` exactly.  The IGST branch, the total, and the zeroed `_sgst` fields are as
claimed, but the code multiplies by `Decimal(0.18)` (the double below 18/100),
so on the sample shirt the tax is `96.85799999999999641553394270`, which is NOT
`538.10 × 0.18 = 96.858`. -/
theorem claim_C2 :
    ((computeItem billingSample shippingMaharashtra itemShirt).2 = none) ∧
    ((computeItem billingSample shippingMaharashtra itemShirt).1.tax_type = some "IGST") ∧
    ((computeItem billingSample shippingMaharashtra itemShirt).1.net_amount = some ⟨53810, -2⟩) ∧
    ((computeItem billingSample shippingMaharashtra itemShirt).1.tax_amount =
      some ⟨9685799999999999641553394270, -26⟩) ∧
    ((computeItem billingSample shippingMaharashtra itemShirt).1.total_amount =
      some ⟨6349579999999999964155339427, -25⟩) ∧
    ((computeItem billingSample shippingMaharashtra itemShirt).1.tax_amount_sgst =
      some ⟨0, 0⟩) ∧
    ((computeItem billingSample shippingMaharashtra itemShirt).1.total_amount_sgst =
      some ⟨0, 0⟩) ∧
    ¬ Dec.veq ⟨9685799999999999641553394270, -26⟩ (decMulExact ⟨53810, -2⟩ ⟨18, -2⟩) := by
  decide

/-- C4: `net_amount = unit_price × quantity − discount` does hold exactly on the
sample inputs (string/int conversion and the product/difference are exact), but
the derived tax amounts are NOT exact decimal multiples: on the shipping-charge
item (net = 30.96, intra-state) the code's `tax_amount` is
`2.786399999999999896882485473` ≠ `30.96 × 0.09 = 2.7864`, because the rate is
the binary double `Decimal(0.09)`, not the decimal 9/100. -/
theorem claim_C4 :
    ((computeItem billingSample shippingSample itemShipping).1.net_amount =
      some ⟨3096, -2⟩) ∧
    Dec.veq ⟨3096, -2⟩ (decSub (decMulExact ⟨3096, -2⟩ ⟨1, 0⟩) ⟨0, 0⟩) ∧
    ((computeItem billingSample shippingSample itemShipping).1.tax_amount =
      some ⟨2786399999999999896882485473, -27⟩) ∧
    ¬ Dec.veq ⟨2786399999999999896882485473, -27⟩ (decMulExact ⟨3096, -2⟩ ⟨9, -2⟩) := by
  decide

/-- C5 (Scenario A): unit_price `'538.10'`, quantity 1, discount 0, same
city/state.  The code gives `net = 538.10` and the CGST branch as claimed, but
`tax_amount = 48.42899999999999820776697135 ≠ 48.429` and
`total_amount = 586.5289999999999982077669714 ≠ 586.529`: the scenario's exact
decimals are not what the program produces, again because of the
`Decimal(0.09)` float artifact. -/
theorem claim_C5 :
    ((computeItem billingSample shippingSample itemShirt).1.net_amount =
      some ⟨53810, -2⟩) ∧
    ((computeItem billingSample shippingSample itemShirt).1.tax_type = some "CGST") ∧
    ((computeItem billingSample shippingSample itemShirt).1.tax_amount =
      some ⟨4842899999999999820776697135, -26⟩) ∧
    ((computeItem billingSample shippingSample itemShirt).1.total_amount =
      some ⟨5865289999999999982077669714, -25⟩) ∧
    ¬ Dec.veq ⟨4842899999999999820776697135, -26⟩ ⟨48429, -3⟩ ∧
    ¬ Dec.veq ⟨5865289999999999982077669714, -25⟩ ⟨586529, -3⟩ := by
  decide

/-- C3: the grand total of the totals row and the grand total of the
amount-in-words line are computed by the same expression —
`sum([Decimal(item['total_amount']) for item in self.item_details])` — over the
same items with the same context precision, so they agree (bit for bit) for
every list of items. -/
theorem claim_C3 (items : List Item) :
    create_total_row_amount items = create_amount_in_words_amount items := rfl

/-- C6 counterexample: the claim fails in two ways on concrete inputs.  With
both city keys absent but different states, the computation does not fail at
all (the `and` short-circuits before reading any city): it completes in the
IGST branch.  And with the billing state key absent, the failure is a
`KeyError` raised only after `net_amount = 30.96` has been computed and stored
for the item — not before any amount is computed. -/
theorem claim_C6_counterexample :
    ((computeItem { billingSample with city := none }
        { shippingMaharashtra with city := none } itemShipping).2 = none) ∧
    ((computeItem { billingSample with city := none }
        { shippingMaharashtra with city := none } itemShipping).1.tax_type = some "IGST") ∧
    ((computeItem { billingSample with state := none } shippingSample itemShipping).2 =
      some (PyErr.keyError "state")) ∧
    ((computeItem { billingSample with state := none } shippingSample itemShipping).1.net_amount =
      some ⟨3096, -2⟩) := by
  decide

/-- C6 (amended): when a jurisdiction key the loop actually reads is missing —
the billing or shipping state, or, when both states are present and equal, a
city — the iteration raises a `KeyError` (the program has no
`MissingJurisdiction`), and by that point the item's `net_amount` has already
been computed and stored (assuming the three amount fields convert); when the
states differ, absent city keys cause no failure at all. -/
theorem claim_C6 (b s : Party) (item : Item) (up q disc : Dec)
    (hup : pyDecimal item.unit_price = some up)
    (hq : pyDecimal item.quantity = some q)
    (hd : pyDecimal item.discount = some disc)
    (hmiss : b.state = none ∨ s.state = none ∨
      (∃ st, b.state = some st ∧ s.state = some st ∧ (b.city = none ∨ s.city = none))) :
    (∃ k, (computeItem b s item).2 = some (PyErr.keyError k)) ∧
    (computeItem b s item).1.net_amount = some (decSub (decMul up q) disc) := by
  unfold computeItem
  rw [hup, hq, hd]
  rcases hmiss with hbs | hss | ⟨st, hbs, hss, hcity⟩
  · rw [hbs]
    exact ⟨⟨"state", rfl⟩, rfl⟩
  · cases hbsv : b.state with
    | none => exact ⟨⟨"state", rfl⟩, rfl⟩
    | some bs =>
      rw [hss]
      exact ⟨⟨"state", rfl⟩, rfl⟩
  · rw [hbs, hss]
    simp only [if_pos rfl]
    rcases hcity with hbc | hsc
    · rw [hbc]
      exact ⟨⟨"city", rfl⟩, rfl⟩
    · cases hbcv : b.city with
      | none => exact ⟨⟨"city", rfl⟩, rfl⟩
      | some bc =>
        rw [hsc]
        exact ⟨⟨"city", rfl⟩, rfl⟩

/-- C6 witness: the amended statement instantiated at the sample shirt with the
billing record's state key removed. -/
theorem claim_C6_witness :
    (∃ k, (computeItem { billingSample with state := none } shippingSample itemShirt).2 =
      some (PyErr.keyError k)) ∧
    (computeItem { billingSample with state := none } shippingSample itemShirt).1.net_amount =
      some (decSub (decMul ⟨53810, -2⟩ ⟨1, 0⟩) ⟨0, 0⟩) :=
  claim_C6 _ _ _ _ _ _ (by decide) (by decide) (by decide) (Or.inl rfl)

/-- C7 counterexample: a negative unit price (`'-30.96'`) is numeric and
negative, yet the computation succeeds — no error of any kind, and a negative
net amount flows through — instead of failing with `InvalidAmount` as the claim
requires. -/
theorem claim_C7_counterexample :
    ((computeItem billingSample shippingSample
        { itemShipping with unit_price := PyVal.vstr "-30.96" }).2 = none) ∧
    ((computeItem billingSample shippingSample
        { itemShipping with unit_price := PyVal.vstr "-30.96" }).1.net_amount =
      some ⟨-3096, -2⟩) := by
  decide

/-- C7 (amended): the computation validates neither sign nor magnitude.  It
succeeds for every item whose `unit_price`, `quantity` and `discount` convert
to `Decimal` — negative values included — provided the jurisdiction keys it
reads are present; and it fails with `decimal.InvalidOperation` (there is no
`InvalidAmount`) exactly when one of the three fields does not convert. -/
theorem claim_C7 :
    (∀ (b s : Party) (item : Item) (up q disc : Dec) (bs ss : String),
      pyDecimal item.unit_price = some up →
      pyDecimal item.quantity = some q →
      pyDecimal item.discount = some disc →
      b.state = some bs → s.state = some ss →
      (bs = ss → b.city ≠ none ∧ s.city ≠ none) →
      (computeItem b s item).2 = none) ∧
    (∀ (b s : Party) (item : Item),
      (pyDecimal item.unit_price = none ∨ pyDecimal item.quantity = none ∨
        pyDecimal item.discount = none) →
      (computeItem b s item).2 = some PyErr.invalidOperation) := by
  constructor
  · intro b s item up q disc bs ss hup hq hd hbs hss hcity
    unfold computeItem
    rw [hup, hq, hd, hbs, hss]
    by_cases hEq : bs = ss
    · rcases hcity hEq with ⟨hbc, hsc⟩
      cases hbcv : b.city with
      | none => exact absurd hbcv hbc
      | some bc =>
        cases hscv : s.city with
        | none => exact absurd hscv hsc
        | some sc =>
          simp only [if_pos hEq]
          by_cases hc : bc = sc
          · simp [hc]
          · simp [hc]
    · simp [hEq]
  · intro b s item hmiss
    unfold computeItem
    rcases hmiss with h | h | h
    · rw [h]
    · cases hup : pyDecimal item.unit_price with
      | none => rfl
      | some up => rw [h]
    · cases hup : pyDecimal item.unit_price with
      | none => rfl
      | some up =>
        cases hq : pyDecimal item.quantity with
        | none => rfl
        | some q => rw [h]

/-- C7 witness: the amended statement at concrete inputs — a negative discount
still succeeds, and a non-numeric unit price fails with `InvalidOperation`. -/
theorem claim_C7_witness :
    ((computeItem billingSample shippingSample
        { itemShirt with discount := PyVal.vstr "-10.00" }).2 = none) ∧
    ((computeItem billingSample shippingSample
        { itemShirt with unit_price := PyVal.vstr "priceless" }).2 =
      some PyErr.invalidOperation) :=
  ⟨claim_C7.1 billingSample shippingSample _ ⟨53810, -2⟩ ⟨1, 0⟩ ⟨-1000, -2⟩
      "KARNATAKA" "KARNATAKA" (by decide) (by decide) (by decide) (by decide) (by decide)
      (fun _ => ⟨by decide, by decide⟩),
   claim_C7.2 billingSample shippingSample _ (Or.inl (by decide))⟩

/-- The caller-supplied input fields of a line item, as a tuple. -/
def itemInputs (item : Item) : String × PyVal × PyVal × PyVal :=
  (item.description, item.unit_price, item.quantity, item.discount)

/-- One loop iteration only assigns derived keys: the four input fields come
out unchanged on every path, successful or failing. -/
theorem computeItem_inputs (b s : Party) (item : Item) :
    itemInputs (computeItem b s item).1 = itemInputs item := by
  unfold computeItem
  cases hup : pyDecimal item.unit_price with
  | none => rfl
  | some up =>
    cases hq : pyDecimal item.quantity with
    | none => rfl
    | some q =>
      cases hd : pyDecimal item.discount with
      | none => rfl
      | some disc =>
        cases hbs : b.state with
        | none => rfl
        | some bs =>
          cases hss : s.state with
          | none => rfl
          | some ss =>
            by_cases hEq : bs = ss
            · simp only [if_pos hEq]
              cases hbc : b.city with
              | none => rfl
              | some bc =>
                cases hsc : s.city with
                | none => rfl
                | some sc =>
                  by_cases hc : bc = sc
                  · simp only [if_pos hc]; rfl
                  · simp only [if_neg hc]; rfl
            · simp only [if_neg hEq]; rfl

/-- The whole loop preserves each item's input fields (and, as a consequence of
the map equation, the number and order of items). -/
theorem computeItems_inputs (b s : Party) (items : List Item) :
    (computeItems b s items).1.map itemInputs = items.map itemInputs := by
  induction items with
  | nil => rfl
  | cons item rest ih =>
    simp only [computeItems]
    cases herr : (computeItem b s item).2 with
    | some err => simp [computeItem_inputs]
    | none => simp [computeItem_inputs, ih]

/-- The loop neither adds nor removes items. -/
theorem computeItems_length (b s : Party) (items : List Item) :
    (computeItems b s items).1.length = items.length := by
  have h := congrArg List.length (computeItems_inputs b s items)
  simpa using h

/-- When the loop finishes without an exception, its output is the per-item map
of the single-item computation: no item's result depends on any other item. -/
theorem computeItems_of_ok (b s : Party) (items : List Item)
    (h : (computeItems b s items).2 = none) :
    (computeItems b s items).1 = items.map fun item => (computeItem b s item).1 := by
  induction items with
  | nil => rfl
  | cons item rest ih =>
    simp only [computeItems] at h ⊢
    cases herr : (computeItem b s item).2 with
    | some err =>
      rw [herr] at h
      simp at h
    | none =>
      rw [herr] at h
      simp at h ⊢
      exact ih h

/-- Rerunning one loop iteration on its own output changes nothing: every
derived field is recomputed from the unchanged input fields and jurisdictions,
along the same branch, to the same values. -/
theorem computeItem_idem (b s : Party) (item : Item) :
    computeItem b s (computeItem b s item).1 = computeItem b s item := by
  unfold computeItem
  cases hup : pyDecimal item.unit_price with
  | none => simp [hup]
  | some up =>
    cases hq : pyDecimal item.quantity with
    | none => simp [hup, hq]
    | some q =>
      cases hd : pyDecimal item.discount with
      | none => simp [hup, hq, hd]
      | some disc =>
        cases hbs : b.state with
        | none => simp [hup, hq, hd, hbs]
        | some bs =>
          cases hss : s.state with
          | none => simp [hup, hq, hd, hbs, hss]
          | some ss =>
            by_cases hEq : bs = ss
            · simp only [if_pos hEq]
              cases hbc : b.city with
              | none => simp [hup, hq, hd, hbs, hss, hbc, if_pos hEq]
              | some bc =>
                cases hsc : s.city with
                | none => simp [hup, hq, hd, hbs, hss, hbc, hsc, if_pos hEq]
                | some sc =>
                  by_cases hc : bc = sc
                  · simp [hup, hq, hd, hbs, hss, hbc, hsc, if_pos hEq, if_pos hc,
                      cgstUpdate]
                  · simp [hup, hq, hd, hbs, hss, hbc, hsc, if_pos hEq, if_neg hc,
                      igstUpdate]
            · simp [hup, hq, hd, hbs, hss, if_neg hEq, igstUpdate]

/-- C9: the compute step is idempotent — running `_compute_item_details` a
second time on the items it just produced (same billing and shipping) returns
exactly the same items and the same outcome, because every derived field is a
function of the unchanged input fields and jurisdictions only. -/
theorem claim_C9 (b s : Party) (items : List Item) :
    computeItems b s (computeItems b s items).1 = computeItems b s items := by
  induction items with
  | nil => rfl
  | cons item rest ih =>
    simp only [computeItems]
    cases herr : (computeItem b s item).2 with
    | some err =>
      simp only [computeItems, computeItem_idem, herr]
    | none =>
      simp only [computeItems, computeItem_idem, herr, ih]

/-- C10: the compute step is frame-correct — it returns the invoice with only
the derived item fields filled in: seller, billing, shipping, order and invoice
records, the reverse-charge string and the file paths are untouched, the item
count is unchanged, and every item keeps its input fields. -/
theorem claim_C10 (inv : Invoice) :
    ((computeInvoice inv).1.seller_details = inv.seller_details) ∧
    ((computeInvoice inv).1.billing_details = inv.billing_details) ∧
    ((computeInvoice inv).1.shipping_details = inv.shipping_details) ∧
    ((computeInvoice inv).1.order_details = inv.order_details) ∧
    ((computeInvoice inv).1.invoice_details = inv.invoice_details) ∧
    ((computeInvoice inv).1.reverse_charge = inv.reverse_charge) ∧
    ((computeInvoice inv).1.signature_image_path = inv.signature_image_path) ∧
    ((computeInvoice inv).1.output_filename = inv.output_filename) ∧
    ((computeInvoice inv).1.item_details.length = inv.item_details.length) ∧
    ((computeInvoice inv).1.item_details.map itemInputs = inv.item_details.map itemInputs) :=
  ⟨rfl, rfl, rfl, rfl, rfl, rfl, rfl, rfl,
   computeItems_length inv.billing_details inv.shipping_details inv.item_details,
   computeItems_inputs inv.billing_details inv.shipping_details inv.item_details⟩

/-- C8: the rendered item table is the header row followed by the items in
input order — the row after the header at table position `i + 1` is exactly the
row of the `i`-th input item, whose serial-number cell is `i + 1` (1-based
position by index, never re-sorted) — and, when the compute loop succeeds, its
output is a per-item map, so no item's computation depends on any other item. -/
theorem claim_C8 (b s : Party) (items : List Item) (i : Nat) :
    ((create_item_details_table items)[i + 1]? = (items[i]?).map (itemRowCells i)) ∧
    ((computeItems b s items).2 = none →
      (computeItems b s items).1 = items.map fun item => (computeItem b s item).1) := by
  constructor
  · simp only [create_item_details_table, List.getElem?_cons_succ, List.getElem?_map,
      List.getElem?_enum]
    cases items[i]? <;> rfl
  · exact computeItems_of_ok b s items

/-- C8 witness: the concrete two-item sample — the table row at position 2 is
the serial-2 row of the second input item, and the successful compute run maps
over the items one by one. -/
theorem claim_C8_witness :
    ((create_item_details_table [itemShirt, itemShipping])[2]? =
      some (itemRowCells 1 itemShipping)) ∧
    ((computeItems billingSample shippingSample [itemShirt, itemShipping]).1 =
      [itemShirt, itemShipping].map fun item =>
        (computeItem billingSample shippingSample item).1) :=
  ⟨by simpa using
      (claim_C8 billingSample shippingSample [itemShirt, itemShipping] 1).1,
   (claim_C8 billingSample shippingSample [itemShirt, itemShipping] 1).2 (by decide)⟩
